import Mathlib

/-!
Shallow embedding of `src/account_state_management.rs`: an in-memory
key-value store of Solana-style account records with pessimistic-locking
transactions, atomic commit and rollback.

Rust `HashMap`s held behind `RwLock`s become function maps
(`K → Option V`); the per-transaction `HashMap`/`HashSet` fields, which
the source iterates over at commit/rollback, become association lists
with insert-replacing-by-key semantics.  `u64` is `Nat` with an explicit
`% 2^64` where the source performs unchecked addition.  Stateful methods
on `AccountsDb` (`&self` with interior mutability) become explicit
state-passing functions returning the result paired with the updated
database; an early `return Err(..)` in the source corresponds to
returning the error paired with the unchanged database.
-/

namespace AccountStateManagement

/-- `[u8; 32]` account keys; equality is byte-exact list equality. -/
abbrev Pubkey := List Nat

/-- Mirrors `struct AccountState` (lamports: u64, data: Vec<u8>,
owner: [u8; 32], executable: bool, rent_epoch: u64). -/
structure AccountState where
  lamports : Nat
  data : List Nat
  owner : Pubkey
  executable : Bool
  rent_epoch : Nat
deriving DecidableEq, Repr

/-- Mirrors `AccountState::new`: executable defaults to false, rent_epoch to 0. -/
def AccountState.new (lamports : Nat) (data : List Nat) (owner : Pubkey) : AccountState :=
  ⟨lamports, data, owner, false, 0⟩

/-- Mirrors `enum TransactionStatus`. -/
inductive TransactionStatus
  | Active
  | Committed
  | Aborted
deriving DecidableEq, Repr

/-- Mirrors `enum AccountError`. -/
inductive AccountError
  | AccountNotFound
  | AccountLocked
  | TransactionNotFound
  | InvalidTransaction
  | InsufficientFunds
  | InvalidAccountData
  | ConcurrentModification
deriving DecidableEq, Repr

/-- Mirrors `struct Transaction`.  `locked_accounts: HashSet<[u8;32]>` is a
duplicate-free list, `modifications: HashMap<[u8;32], AccountState>` an
association list with at most one entry per key. -/
structure Transaction where
  id : Nat
  block : Nat
  slot : Nat
  status : TransactionStatus
  created_at : Nat
  locked_accounts : List Pubkey
  modifications : List (Pubkey × AccountState)
deriving DecidableEq, Repr

/-- `HashMap::insert` on a function map: point update. -/
def fInsert {K V : Type} [DecidableEq K] (m : K → Option V) (k : K) (v : V) :
    K → Option V :=
  fun x => if x = k then some v else m x

/-- `HashMap::remove` on a function map: point deletion. -/
def fRemove {K V : Type} [DecidableEq K] (m : K → Option V) (k : K) :
    K → Option V :=
  fun x => if x = k then none else m x

/-- `HashMap::insert` on an association list: replaces the entry for `k`
if present, otherwise appends it. -/
def mapInsert {K V : Type} [DecidableEq K] (m : List (K × V)) (k : K) (v : V) :
    List (K × V) :=
  match m with
  | [] => [(k, v)]
  | (k', v') :: rest => if k' = k then (k, v) :: rest else (k', v') :: mapInsert rest k v

/-- `HashMap::get` on an association list. -/
def mapLookup {K V : Type} [DecidableEq K] (m : List (K × V)) (k : K) : Option V :=
  match m with
  | [] => none
  | (k', v') :: rest => if k' = k then some v' else mapLookup rest k

/-- `HashMap::contains_key` on an association list. -/
def mapContainsKey {K V : Type} [DecidableEq K] (m : List (K × V)) (k : K) : Bool :=
  (mapLookup m k).isSome

/-- Decidable equality for `Except` results, so that concrete scenario
outcomes can be evaluated. -/
instance instDecEqExcept {ε α : Type} [DecidableEq ε] [DecidableEq α] :
    DecidableEq (Except ε α)
  | Except.ok a, Except.ok b =>
      if h : a = b then Decidable.isTrue (by rw [h])
      else Decidable.isFalse (fun he => h (Except.ok.inj he))
  | Except.ok _, Except.error _ => Decidable.isFalse (fun he => Except.noConfusion he)
  | Except.error _, Except.ok _ => Decidable.isFalse (fun he => Except.noConfusion he)
  | Except.error a, Except.error b =>
      if h : a = b then Decidable.isTrue (by rw [h])
      else Decidable.isFalse (fun he => h (Except.error.inj he))

/-- `HashSet::insert`: a no-op when the element is already present. -/
def setInsert {K : Type} [DecidableEq K] (s : List K) (k : K) : List K :=
  if k ∈ s then s else k :: s

/-- Mirrors `struct AccountWriteGuard` minus the `accounts_db` back-pointer,
which explicit state passing replaces: the drop handler takes the database
as an argument. -/
structure AccountWriteGuard where
  pubkey : Pubkey
  account : AccountState
  transaction_id : Nat
deriving DecidableEq, Repr

/-- Mirrors `struct AccountsDb`: the three shared `RwLock<HashMap<..>>`
fields become function maps, plus the id counter. -/
structure AccountsDb where
  accounts : Pubkey → Option AccountState
  transactions : Nat → Option Transaction
  account_locks : Pubkey → Option Nat
  next_transaction_id : Nat

/-- Mirrors `AccountsDb::new`. -/
def AccountsDb.new : AccountsDb :=
  ⟨fun _ => none, fun _ => none, fun _ => none, 1⟩

/-- `u64` modulus. -/
def U64 : Nat := 2 ^ 64

namespace AccountWriteGuard

/-- Mirrors `AccountWriteGuard::get_lamports`. -/
def get_lamports (g : AccountWriteGuard) : Nat := g.account.lamports

/-- Mirrors `AccountWriteGuard::set_lamports`. -/
def set_lamports (g : AccountWriteGuard) (lamports : Nat) : AccountWriteGuard :=
  { g with account := { g.account with lamports := lamports } }

/-- Mirrors `AccountWriteGuard::get_data`. -/
def get_data (g : AccountWriteGuard) : List Nat := g.account.data

/-- Mirrors `AccountWriteGuard::set_data`. -/
def set_data (g : AccountWriteGuard) (data : List Nat) : AccountWriteGuard :=
  { g with account := { g.account with data := data } }

/-- Mirrors `AccountWriteGuard::get_owner`. -/
def get_owner (g : AccountWriteGuard) : Pubkey := g.account.owner

/-- Mirrors `AccountWriteGuard::set_owner`. -/
def set_owner (g : AccountWriteGuard) (owner : Pubkey) : AccountWriteGuard :=
  { g with account := { g.account with owner := owner } }

/-- Mirrors `AccountWriteGuard::transfer_lamports`.  The `&mut self`
receiver and `Result<(), AccountError>` return become a pair of the
result and the (possibly unchanged) guard. -/
def transfer_lamports (g : AccountWriteGuard) (amount : Nat) :
    Except AccountError Unit × AccountWriteGuard :=
  if g.account.lamports < amount then
    (Except.error AccountError.InsufficientFunds, g)
  else
    (Except.ok (), { g with account := { g.account with lamports := g.account.lamports - amount } })

/-- Mirrors `AccountWriteGuard::add_lamports`: unchecked `u64` addition,
modelled as wrapping modulo `2^64`. -/
def add_lamports (g : AccountWriteGuard) (amount : Nat) : AccountWriteGuard :=
  { g with account := { g.account with lamports := (g.account.lamports + amount) % U64 } }

end AccountWriteGuard

/-- Mirrors `impl Drop for AccountWriteGuard`: stores the guard's private
copy into the transaction's `modifications` map (when the transaction is
registered) and removes the account's lock-table entry. -/
def dropGuard (g : AccountWriteGuard) (db : AccountsDb) : AccountsDb :=
  let transactions1 :=
    match db.transactions g.transaction_id with
    | some t =>
        fInsert db.transactions g.transaction_id
          { t with modifications := mapInsert t.modifications g.pubkey g.account }
    | none => db.transactions
  { db with
    transactions := transactions1
    account_locks := fRemove db.account_locks g.pubkey }

namespace AccountsDb

/-- Mirrors `AccountsDb::begin_transaction`.  `created_at` (wall-clock
seconds in the source) is passed in as a parameter. -/
def begin_transaction (db : AccountsDb) (block slot created_at : Nat) :
    Transaction × AccountsDb :=
  let id := db.next_transaction_id
  let tx : Transaction :=
    { id := id, block := block, slot := slot, status := TransactionStatus.Active,
      created_at := created_at, locked_accounts := [], modifications := [] }
  (tx, { db with
          next_transaction_id := (id + 1) % U64
          transactions := fInsert db.transactions id tx })

/-- The fall-through of `load_account_for_write` after the lock check has
passed: lock the key, read the current state (zero-value default when
absent), record the pre-image if none is recorded yet, mark the key
locked, and build the guard. -/
def loadAcquire (db : AccountsDb) (pubkey : Pubkey) (tx : Transaction) :
    Except AccountError AccountWriteGuard × AccountsDb :=
  let locks1 := fInsert db.account_locks pubkey tx.id
  let account := (db.accounts pubkey).getD (AccountState.new 0 [] (List.replicate 32 0))
  let transactions1 :=
    match db.transactions tx.id with
    | some t =>
        let t1 :=
          if mapContainsKey t.modifications pubkey then t
          else { t with modifications := mapInsert t.modifications pubkey account }
        fInsert db.transactions tx.id
          { t1 with locked_accounts := setInsert t1.locked_accounts pubkey }
    | none => db.transactions
  (Except.ok ⟨pubkey, account, tx.id⟩,
   { db with account_locks := locks1, transactions := transactions1 })

/-- Mirrors `AccountsDb::load_account_for_write`: fail fast with
`AccountLocked` when another transaction holds the key, else acquire. -/
def load_account_for_write (db : AccountsDb) (pubkey : Pubkey) (tx : Transaction) :
    Except AccountError AccountWriteGuard × AccountsDb :=
  match db.account_locks pubkey with
  | some locking_tx_id =>
      if locking_tx_id = tx.id then loadAcquire db pubkey tx
      else (Except.error AccountError.AccountLocked, db)
  | none => loadAcquire db pubkey tx

/-- Mirrors `AccountsDb::commit_transaction`: status check on the stored
record, then apply the *passed* transaction value's `modifications` to the
account table, release the keys in its `locked_accounts`, and mark the
stored record Committed. -/
def commit_transaction (db : AccountsDb) (tx : Transaction) :
    Except AccountError Unit × AccountsDb :=
  match db.transactions tx.id with
  | none => (Except.error AccountError.TransactionNotFound, db)
  | some stored =>
      if stored.status ≠ TransactionStatus.Active then
        (Except.error AccountError.InvalidTransaction, db)
      else
        let accounts1 := tx.modifications.foldl
          (fun acc (p : Pubkey × AccountState) => fInsert acc p.1 p.2) db.accounts
        let locks1 := tx.locked_accounts.foldl
          (fun l p => fRemove l p) db.account_locks
        let transactions1 := fInsert db.transactions tx.id
          { stored with status := TransactionStatus.Committed }
        (Except.ok (),
         { db with accounts := accounts1, account_locks := locks1,
                   transactions := transactions1 })

/-- Mirrors `AccountsDb::rollback_transaction`: status check on the stored
record, then write the *passed* transaction value's `modifications` back
into the account table, release the keys in its `locked_accounts`, and
mark the stored record Aborted. -/
def rollback_transaction (db : AccountsDb) (tx : Transaction) :
    Except AccountError Unit × AccountsDb :=
  match db.transactions tx.id with
  | none => (Except.error AccountError.TransactionNotFound, db)
  | some stored =>
      if stored.status ≠ TransactionStatus.Active then
        (Except.error AccountError.InvalidTransaction, db)
      else
        let accounts1 := tx.modifications.foldl
          (fun acc (p : Pubkey × AccountState) => fInsert acc p.1 p.2) db.accounts
        let locks1 := tx.locked_accounts.foldl
          (fun l p => fRemove l p) db.account_locks
        let transactions1 := fInsert db.transactions tx.id
          { stored with status := TransactionStatus.Aborted }
        (Except.ok (),
         { db with accounts := accounts1, account_locks := locks1,
                   transactions := transactions1 })

/-- Mirrors `AccountsDb::get_transaction`. -/
def get_transaction (db : AccountsDb) (tx_id : Nat) : Except AccountError Transaction :=
  match db.transactions tx_id with
  | some t => Except.ok t
  | none => Except.error AccountError.TransactionNotFound

/-- Mirrors `AccountsDb::get_account`. -/
def get_account (db : AccountsDb) (pubkey : Pubkey) : Option AccountState :=
  db.accounts pubkey

/-- Mirrors `AccountsDb::create_account`. -/
def create_account (db : AccountsDb) (pubkey : Pubkey) (account : AccountState) :
    AccountsDb :=
  { db with accounts := fInsert db.accounts pubkey account }

end AccountsDb

/-- Extracts the guard from a successful acquisition; a dummy guard on
error (used only in concrete scenarios where success is proved). -/
def orDummyGuard (e : Except AccountError AccountWriteGuard) : AccountWriteGuard :=
  match e with
  | Except.ok g => g
  | Except.error _ => ⟨[], AccountState.new 0 [] [], 0⟩

/-- The `begin` → acquire guard for `k` → mutate → release → rollback
sequence, with rollback applied to the transaction value returned by
`begin_transaction`, exactly as the repository's driver
(`run_account_state_management`) invokes it.  The mutation replaces the
guard's private copy with `a`; every sequence of guard operations yields
a guard of this form, since each operation rewrites only the `account`
field.  Returns the acquisition result together with the rollback
result and final database. -/
def beginMutateRollback (db : AccountsDb) (k : Pubkey) (a : AccountState)
    (block slot t : Nat) :
    Except AccountError AccountWriteGuard × (Except AccountError Unit × AccountsDb) :=
  let p := db.begin_transaction block slot t
  let l := p.2.load_account_for_write k p.1
  let g := orDummyGuard l.1
  let db3 := dropGuard { g with account := a } l.2
  (l.1, db3.rollback_transaction p.1)

/-- All-zero 32-byte owner id, `[0u8; 32]`. -/
def zeroOwner : Pubkey := List.replicate 32 0

/-- Alice's key from the driver, `[1u8; 32]`. -/
def aliceKey : Pubkey := List.replicate 32 1

/-- Charlie's key from the driver, `[3u8; 32]`. -/
def charlieKey : Pubkey := List.replicate 32 3

/- Scenario for claim C1: seed Alice with 1000 lamports, begin, acquire a
guard, debit 100, release, then commit passing the transaction value that
`begin_transaction` returned — the call pattern of the repository's own
driver (`db.commit_transaction(tx)` at src line 368). -/

def c1Db0 : AccountsDb :=
  AccountsDb.new.create_account aliceKey (AccountState.new 1000 [] zeroOwner)

def c1Begin : Transaction × AccountsDb := c1Db0.begin_transaction 1 100 0

def c1Tx : Transaction := c1Begin.1

def c1Load : Except AccountError AccountWriteGuard × AccountsDb :=
  c1Begin.2.load_account_for_write aliceKey c1Tx

def c1Debit : Except AccountError Unit × AccountWriteGuard :=
  (orDummyGuard c1Load.1).transfer_lamports 100

def c1Db3 : AccountsDb := dropGuard c1Debit.2 c1Load.2

def c1Commit : Except AccountError Unit × AccountsDb := c1Db3.commit_transaction c1Tx

/- Scenario for claim C2: seed Charlie with 200 lamports, begin, acquire a
guard (recording the pre-image), debit 50, release. -/

def c2Db0 : AccountsDb :=
  AccountsDb.new.create_account charlieKey (AccountState.new 200 [] zeroOwner)

def c2Begin : Transaction × AccountsDb := c2Db0.begin_transaction 2 101 0

def c2Tx : Transaction := c2Begin.1

def c2Load : Except AccountError AccountWriteGuard × AccountsDb :=
  c2Begin.2.load_account_for_write charlieKey c2Tx

def c2Db3 : AccountsDb :=
  dropGuard ((orDummyGuard c2Load.1).transfer_lamports 50).2 c2Load.2

/- Scenario for claim C4: begin a transaction and commit it immediately,
so the registry holds it with status Committed; then attempt a further
guard acquisition for it. -/

def c4Begin : Transaction × AccountsDb := AccountsDb.new.begin_transaction 1 100 0

def c4Tx : Transaction := c4Begin.1

def c4Commit : Except AccountError Unit × AccountsDb := c4Begin.2.commit_transaction c4Tx

def c4Load : Except AccountError AccountWriteGuard × AccountsDb :=
  c4Commit.2.load_account_for_write aliceKey c4Tx

/-- The registry record of `c4Tx` after the commit. -/
def c4Stored : Transaction :=
  { id := 1, block := 1, slot := 100, status := TransactionStatus.Committed,
    created_at := 0, locked_accounts := [], modifications := [] }

/- Scenario for claim C5: seed a key, begin, acquire a guard and keep it
alive (no release), then commit passing the begin-time transaction value. -/

def c5Key : Pubkey := List.replicate 32 5

def c5Db0 : AccountsDb :=
  AccountsDb.new.create_account c5Key (AccountState.new 700 [] zeroOwner)

def c5Begin : Transaction × AccountsDb := c5Db0.begin_transaction 3 102 0

def c5Tx : Transaction := c5Begin.1

def c5Load : Except AccountError AccountWriteGuard × AccountsDb :=
  c5Begin.2.load_account_for_write c5Key c5Tx

def c5Commit : Except AccountError Unit × AccountsDb := c5Load.2.commit_transaction c5Tx

/- Concrete inputs for witnesses of the universally quantified theorems. -/

def wGuard : AccountWriteGuard :=
  ⟨aliceKey, AccountState.new 10 [1, 2] zeroOwner, 1⟩

def wGuardMax : AccountWriteGuard :=
  ⟨aliceKey, AccountState.new (U64 - 1) [] zeroOwner, 1⟩

def c6Db : AccountsDb :=
  { AccountsDb.new with account_locks := fInsert (fun _ => none) aliceKey 5 }

def c6Tx : Transaction :=
  { id := 7, block := 1, slot := 1, status := TransactionStatus.Active,
    created_at := 0, locked_accounts := [], modifications := [] }

def c3Db : AccountsDb :=
  AccountsDb.new.create_account charlieKey (AccountState.new 200 [] zeroOwner)

def c8Db : AccountsDb := (c3Db.begin_transaction 4 103 0).2

def c8Tx : Transaction := (c3Db.begin_transaction 4 103 0).1

/-- Claim C7: for every write guard and amount, if the amount exceeds the
guard's buffered balance then `transfer_lamports` returns
`InsufficientFunds` and the guard's entire buffered state is unchanged;
otherwise it returns success, the buffered balance decreases by exactly
the amount, and every other buffered field is unchanged. -/
theorem transfer_lamports_contract (g : AccountWriteGuard) (amount : Nat) :
    (g.account.lamports < amount →
      (g.transfer_lamports amount).1 = Except.error AccountError.InsufficientFunds ∧
      (g.transfer_lamports amount).2 = g) ∧
    (amount ≤ g.account.lamports →
      (g.transfer_lamports amount).1 = Except.ok () ∧
      (g.transfer_lamports amount).2.account.lamports = g.account.lamports - amount ∧
      (g.transfer_lamports amount).2.account.data = g.account.data ∧
      (g.transfer_lamports amount).2.account.owner = g.account.owner ∧
      (g.transfer_lamports amount).2.account.executable = g.account.executable ∧
      (g.transfer_lamports amount).2.account.rent_epoch = g.account.rent_epoch ∧
      (g.transfer_lamports amount).2.pubkey = g.pubkey ∧
      (g.transfer_lamports amount).2.transaction_id = g.transaction_id) := by
  constructor
  · intro h
    simp [AccountWriteGuard.transfer_lamports, h]
  · intro h
    simp [AccountWriteGuard.transfer_lamports, Nat.not_lt.mpr h]

/-- Witness for C7 at a concrete guard holding 10 lamports: a debit of 20
fails leaving the guard unchanged, and a debit of 3 succeeds leaving 7. -/
theorem transfer_lamports_contract_witness :
    ((wGuard.transfer_lamports 20).1 = Except.error AccountError.InsufficientFunds ∧
      (wGuard.transfer_lamports 20).2 = wGuard) ∧
    ((wGuard.transfer_lamports 3).1 = Except.ok () ∧
      (wGuard.transfer_lamports 3).2.account.lamports = 7) :=
  ⟨(transfer_lamports_contract wGuard 20).1 (by decide),
   ⟨((transfer_lamports_contract wGuard 3).2 (by decide)).1,
    ((transfer_lamports_contract wGuard 3).2 (by decide)).2.1⟩⟩

/-- Claim C10: `add_lamports` neither saturates nor errors.  Its result
is the wrapping `u64` sum `(balance + amount) % 2^64`; in particular when
the mathematical sum fits in a `u64` the buffered balance becomes exactly
`balance + amount`.  All other buffered fields are unchanged, and no
error is surfaced (the operation is total, returning a guard). -/
theorem add_lamports_contract (g : AccountWriteGuard) (amount : Nat) :
    (g.account.lamports + amount < U64 →
      (g.add_lamports amount).account.lamports = g.account.lamports + amount) ∧
    (g.add_lamports amount).account.lamports = (g.account.lamports + amount) % U64 ∧
    (g.add_lamports amount).account.data = g.account.data ∧
    (g.add_lamports amount).account.owner = g.account.owner ∧
    (g.add_lamports amount).account.executable = g.account.executable ∧
    (g.add_lamports amount).account.rent_epoch = g.account.rent_epoch ∧
    (g.add_lamports amount).pubkey = g.pubkey ∧
    (g.add_lamports amount).transaction_id = g.transaction_id := by
  refine ⟨fun h => ?_, ?_, rfl, rfl, rfl, rfl, rfl, rfl⟩
  · simp [AccountWriteGuard.add_lamports, Nat.mod_eq_of_lt h]
  · rfl

/-- Witness for C10: crediting 5 onto 10 gives 15 exactly, and crediting
1 onto `2^64 - 1` wraps to 0. -/
theorem add_lamports_contract_witness :
    (wGuard.add_lamports 5).account.lamports = 15 ∧
    (wGuardMax.add_lamports 1).account.lamports = (wGuardMax.account.lamports + 1) % U64 ∧
    (wGuardMax.add_lamports 1).account.lamports = 0 :=
  ⟨(add_lamports_contract wGuard 5).1 (by decide),
   (add_lamports_contract wGuardMax 1).2.1,
   by decide⟩

/-- Claim C9: neither guard acquisition nor guard release modifies the
Account Table: `get_account` returns the same value on the database
produced by `load_account_for_write` (whether it succeeds or fails) and
on the database produced by the guard's drop handler.  Mutations through
a live guard act only on the guard's private copy by construction (every
guard operation is a function of the guard alone), so the account table
is unchanged from before acquisition until a commit, rollback, or
`create_account` occurs. -/
theorem guard_lifecycle_account_table_frame (db : AccountsDb) (p : Pubkey)
    (tx : Transaction) (g : AccountWriteGuard) (k : Pubkey) :
    (db.load_account_for_write p tx).2.get_account k = db.get_account k ∧
    (dropGuard g db).get_account k = db.get_account k := by
  constructor
  · cases h : db.account_locks p with
    | none => simp [AccountsDb.load_account_for_write, AccountsDb.loadAcquire, h,
        AccountsDb.get_account]
    | some j =>
        by_cases hj : j = tx.id <;>
          simp [AccountsDb.load_account_for_write, AccountsDb.loadAcquire, h, hj,
            AccountsDb.get_account]
  · cases h : db.transactions g.transaction_id <;>
      simp [dropGuard, h, AccountsDb.get_account]

/-- Claim C6: guard acquisition succeeds whenever the key is unlocked or
already locked by the requesting transaction (idempotent re-entry); when
the key is locked by a different transaction it fails with
`AccountLocked` and the database — lock table, registry and account
table — is returned unchanged. -/
theorem load_account_for_write_lock_contract (db : AccountsDb) (k : Pubkey)
    (tx : Transaction) :
    ((db.account_locks k = none ∨ db.account_locks k = some tx.id) →
      (db.load_account_for_write k tx).1.isOk = true) ∧
    (∀ j, db.account_locks k = some j → j ≠ tx.id →
      (db.load_account_for_write k tx).1 = Except.error AccountError.AccountLocked ∧
      (db.load_account_for_write k tx).2 = db) := by
  constructor
  · rintro (h | h) <;>
      simp [AccountsDb.load_account_for_write, AccountsDb.loadAcquire, h, Except.isOk,
        Except.toBool]
  · intro j hj hne
    simp [AccountsDb.load_account_for_write, hj, hne]

/-- Witness for C6: with Alice's key locked by transaction 5, transaction
7's acquisition fails with `AccountLocked` leaving the database unchanged,
and its acquisition of an unlocked key succeeds. -/
theorem load_account_for_write_lock_contract_witness :
    ((c6Db.load_account_for_write aliceKey c6Tx).1
        = Except.error AccountError.AccountLocked ∧
      (c6Db.load_account_for_write aliceKey c6Tx).2 = c6Db) ∧
    (c6Db.load_account_for_write charlieKey c6Tx).1.isOk = true :=
  ⟨(load_account_for_write_lock_contract c6Db aliceKey c6Tx).2 5 (by decide) (by decide),
   (load_account_for_write_lock_contract c6Db charlieKey c6Tx).1 (Or.inl (by decide))⟩

/-- Claim C1 (code defect): in the begin → acquire guard → debit 100 →
release → commit sequence, invoked exactly as the repository's driver
invokes it (`commit_transaction` receives the transaction value returned
by `begin_transaction`), the guard's final staged value 900 is recorded
in the registry at release, the commit succeeds, and the lock for the key
is absent — yet `read(k)` returns the pre-transaction value 1000, not
the staged 900: commit applies the caller's stale snapshot, whose
modification map is empty, instead of the current registry record. -/
theorem commit_stale_snapshot_loses_staged_write :
    c1Load.1.isOk = true ∧
    c1Debit.1 = Except.ok () ∧
    c1Debit.2.account.lamports = 900 ∧
    ((c1Db3.transactions c1Tx.id).map fun t => mapLookup t.modifications aliceKey)
      = some (some (AccountState.new 900 [] zeroOwner)) ∧
    c1Commit.1 = Except.ok () ∧
    c1Commit.2.get_account aliceKey = some (AccountState.new 1000 [] zeroOwner) ∧
    c1Commit.2.account_locks aliceKey = none := by decide

/-- Claim C2 (code defect): the registry's pre-image for Charlie's key is
correctly recorded as the 200-lamport table value at first acquisition,
but the guard's release overwrites it with the post-debit value 150 —
`Transaction.modifications` doubles as the pending-write map, so the
rollback target is destroyed by the very first guard release. -/
theorem guard_release_overwrites_pre_image :
    c2Db0.get_account charlieKey = some (AccountState.new 200 [] zeroOwner) ∧
    ((c2Load.2.transactions c2Tx.id).map fun t => mapLookup t.modifications charlieKey)
      = some (some (AccountState.new 200 [] zeroOwner)) ∧
    ((c2Db3.transactions c2Tx.id).map fun t => mapLookup t.modifications charlieKey)
      = some (some (AccountState.new 150 [] zeroOwner)) := by decide

/-- Claim C5 (code defect): a transaction acquires a guard (so the
registry records its key in `locked_accounts` and the lock table maps the
key to the transaction), and commit is called with the begin-time
transaction value while the guard is still alive.  The commit succeeds
and marks the transaction Committed, yet the lock table still maps the
key to the committed transaction's id: commit released only the keys in
the caller-passed snapshot's empty `locked_accounts`, not the keys
recorded in the registry. -/
theorem commit_leaves_lock_held_by_committed_transaction :
    c5Commit.1 = Except.ok () ∧
    ((c5Commit.2.transactions c5Tx.id).map Transaction.locked_accounts) = some [c5Key] ∧
    ((c5Commit.2.transactions c5Tx.id).map Transaction.status)
      = some TransactionStatus.Committed ∧
    c5Commit.2.account_locks c5Key = some c5Tx.id := by decide

/-- Counterexample to claim C4 as stated: transaction 1 is Committed in
the registry, yet a further guard acquisition for it does not return
`InvalidTransaction` — it succeeds, because `load_account_for_write`
never consults the transaction's status. -/
theorem load_for_committed_transaction_succeeds :
    ((c4Commit.2.transactions c4Tx.id).map Transaction.status)
      = some TransactionStatus.Committed ∧
    c4Load.1.isOk = true ∧
    c4Load.1 ≠ Except.error AccountError.InvalidTransaction := by decide

/-- Claim C4 as amended: for every transaction whose registry record is
Committed or Aborted (any non-Active status), any further commit or
rollback call for it returns `InvalidTransaction` and leaves the database
unchanged.  (Guard acquisition performs no status check and is excluded;
see the counterexample.) -/
theorem non_active_commit_rollback_rejected (db : AccountsDb) (tx : Transaction)
    (stored : Transaction) (hs : db.transactions tx.id = some stored)
    (hna : stored.status ≠ TransactionStatus.Active) :
    (db.commit_transaction tx).1 = Except.error AccountError.InvalidTransaction ∧
    (db.commit_transaction tx).2 = db ∧
    (db.rollback_transaction tx).1 = Except.error AccountError.InvalidTransaction ∧
    (db.rollback_transaction tx).2 = db := by
  simp [AccountsDb.commit_transaction, AccountsDb.rollback_transaction, hs, hna]

/-- Witness for the amended C4 at the concrete committed transaction of
the C4 scenario. -/
theorem non_active_commit_rollback_rejected_witness :
    (c4Commit.2.commit_transaction c4Tx).1
      = Except.error AccountError.InvalidTransaction ∧
    (c4Commit.2.rollback_transaction c4Tx).1
      = Except.error AccountError.InvalidTransaction ∧
    (c4Commit.2.rollback_transaction c4Tx).2 = c4Commit.2 :=
  ⟨(non_active_commit_rollback_rejected c4Commit.2 c4Tx c4Stored (by decide) (by decide)).1,
   (non_active_commit_rollback_rejected c4Commit.2 c4Tx c4Stored (by decide) (by decide)).2.2.1,
   (non_active_commit_rollback_rejected c4Commit.2 c4Tx c4Stored (by decide) (by decide)).2.2.2⟩

/-- Claim C3: for every database in which key `k` is seeded with value
`s0` and unlocked, after begin → acquire a write guard for `k` → mutate
the private copy (to an arbitrary value `a`) → release → rollback — with
rollback invoked as the repository's driver invokes it, on the
transaction value returned by begin — the acquisition and the rollback
succeed, `read(k)` returns exactly the pre-acquisition value `s0` (all
five fields), and the lock table has no entry for `k`. -/
theorem rollback_restores_pre_acquisition_value (db : AccountsDb) (k : Pubkey)
    (s0 a : AccountState) (block slot t : Nat)
    (hacc : db.accounts k = some s0) (hlock : db.account_locks k = none) :
    (beginMutateRollback db k a block slot t).1.isOk = true ∧
    (beginMutateRollback db k a block slot t).2.1 = Except.ok () ∧
    (beginMutateRollback db k a block slot t).2.2.get_account k = some s0 ∧
    (beginMutateRollback db k a block slot t).2.2.account_locks k = none := by
  simp [beginMutateRollback, AccountsDb.begin_transaction, AccountsDb.load_account_for_write,
    AccountsDb.loadAcquire, dropGuard, AccountsDb.rollback_transaction,
    AccountsDb.get_account, orDummyGuard, fInsert, fRemove, mapInsert, mapLookup,
    mapContainsKey, setInsert, hacc, hlock, Except.isOk, Except.toBool]

/-- Witness for C3: Charlie seeded with 200 lamports, mutated to 150
through the guard, restored to 200 by the rollback, lock absent. -/
theorem rollback_restores_pre_acquisition_value_witness :
    (beginMutateRollback c3Db charlieKey (AccountState.new 150 [] zeroOwner) 2 101 0).2.1
      = Except.ok () ∧
    (beginMutateRollback c3Db charlieKey (AccountState.new 150 [] zeroOwner) 2 101 0).2.2.get_account
      charlieKey = some (AccountState.new 200 [] zeroOwner) ∧
    (beginMutateRollback c3Db charlieKey (AccountState.new 150 [] zeroOwner) 2 101 0).2.2.account_locks
      charlieKey = none :=
  ⟨(rollback_restores_pre_acquisition_value c3Db charlieKey
      (AccountState.new 200 [] zeroOwner) (AccountState.new 150 [] zeroOwner) 2 101 0
      (by decide) (by decide)).2.1,
   (rollback_restores_pre_acquisition_value c3Db charlieKey
      (AccountState.new 200 [] zeroOwner) (AccountState.new 150 [] zeroOwner) 2 101 0
      (by decide) (by decide)).2.2.1,
   (rollback_restores_pre_acquisition_value c3Db charlieKey
      (AccountState.new 200 [] zeroOwner) (AccountState.new 150 [] zeroOwner) 2 101 0
      (by decide) (by decide)).2.2.2⟩

/-- Claim C8: a successful rollback of a transaction that acquired no
write guard (its modification map is empty, as `begin_transaction`
created it) leaves the Account Table exactly as it was: every key reads
the same before and after. -/
theorem rollback_without_guards_is_noop (db : AccountsDb) (tx : Transaction)
    (hm : tx.modifications = [])
    (_hok : (db.rollback_transaction tx).1 = Except.ok ()) (k : Pubkey) :
    (db.rollback_transaction tx).2.get_account k = db.get_account k := by
  cases h : db.transactions tx.id with
  | none => simp [AccountsDb.rollback_transaction, h, AccountsDb.get_account]
  | some stored =>
      by_cases hs : stored.status = TransactionStatus.Active
      · simp [AccountsDb.rollback_transaction, h, hs, hm, AccountsDb.get_account]
      · simp [AccountsDb.rollback_transaction, h, hs, AccountsDb.get_account]

/-- Witness for C8: the C3 database after a fresh begin that acquires
nothing; its rollback succeeds and Charlie's account is untouched. -/
theorem rollback_without_guards_is_noop_witness :
    c8Tx.modifications = [] ∧
    (c8Db.rollback_transaction c8Tx).1 = Except.ok () ∧
    (c8Db.rollback_transaction c8Tx).2.get_account charlieKey
      = c8Db.get_account charlieKey :=
  ⟨by decide, by decide,
   rollback_without_guards_is_noop c8Db c8Tx (by decide) (by decide) charlieKey⟩

end AccountStateManagement
